import Mathlib

/-!
Shallow embedding of the Ai-Roulette backend (karved/Ai-Roulette).

Sources embedded here:
* `src/backend/main.py` — the `/game/spin` settlement endpoint (`spin_wheel`),
  the `/player/stats` endpoint (`get_player_stats`), and the winning-number
  classification code shared by both.
* `src/backend/services/game_engine.py` — `GameEngine` validation, grading and
  payout computation.
* `src/backend/services/roulette_engine.py` — `RouletteEngine` validation,
  grading and payout computation.
* `src/backend/services/database.py` — `DatabaseService.save_spin_result`.

Python `float` money amounts are modelled as rationals (`ℚ`); Python ints as
`Int` (Python `//` and `%` with a positive divisor agree with Lean's `Int`
division/modulus, which are Euclidean).  Database rows are explicit record
structures and the mutable store is passed as explicit state.
-/

namespace AiRoulette

/-- The 18 red numbers of the wheel, as listed in `main.py` lines 562 and 513
and in `GameEngine.__init__` / `RouletteEngine.__init__`. -/
def redNumbers : List Int :=
  [1, 3, 5, 7, 9, 12, 14, 16, 18, 19, 21, 23, 25, 27, 30, 32, 34, 36]

/-- The 18 black numbers (`GameEngine.__init__`, `RouletteEngine.__init__`). -/
def blackNumbers : List Int :=
  [2, 4, 6, 8, 10, 11, 13, 15, 17, 20, 22, 24, 26, 28, 29, 31, 33, 35]

/-- `get_payout_odds` in `main.py` (lines 583-588): dictionary lookup with
default `1` for an unknown bet type. -/
def getPayoutOdds (betType : String) : ℚ :=
  if betType = "straight" then 35
  else if betType = "split" then 17
  else if betType = "street" then 11
  else if betType = "corner" then 8
  else if betType = "line" then 5
  else if betType = "dozen" then 2
  else if betType = "column" then 2
  else if betType = "red" then 1
  else if betType = "black" then 1
  else if betType = "even" then 1
  else if betType = "odd" then 1
  else if betType = "low" then 1
  else if betType = "high" then 1
  else 1

/-- The derived attributes of a winning number as computed inline in
`spin_wheel` (`main.py` lines 559-570). -/
structure SpinOutcome where
  number : Int
  color : String
  is_even : Bool
  is_low : Bool
  dozen : Int
  column : Int
  deriving Repr, DecidableEq

/-- `main.py` lines 559-570: derive color / parity / half / dozen / column
from the (possibly caller-supplied) winning number.  No range check is
performed anywhere in this code. -/
def spinClassify (n : Int) : SpinOutcome :=
  { number := n
    color := if n = 0 then "green" else if n ∈ redNumbers then "red" else "black"
    is_even := decide (n % 2 = 0 ∧ n ≠ 0)
    is_low := decide (1 ≤ n ∧ n ≤ 18)
    dozen := if n > 0 then (n - 1) / 12 + 1 else 0
    column := if n % 3 ≠ 0 then n % 3 else if n > 0 then 3 else 0 }

/-- A bet as supplied by the frontend in the `/game/spin` request body
(`bet.get("amount", 0)`, `bet.get("betType", "")`, `bet.get("numbers", [])`). -/
structure FBet where
  betType : String
  amount : ℚ
  numbers : List Int
  deriving Repr, DecidableEq

/-- First grading pass of `spin_wheel` (`main.py` lines 605-630): the
winner-determination conditional chain. -/
def isWinnerFirstPass (o : SpinOutcome) (betType : String) (nums : List Int) : Bool :=
  if betType = "straight" then decide (o.number ∈ nums)
  else if betType = "split" then decide (o.number ∈ nums)
  else if betType = "street" then decide (o.number ∈ nums)
  else if betType = "corner" then decide (o.number ∈ nums)
  else if betType = "line" then decide (o.number ∈ nums)
  else if betType = "dozen" then decide (o.dozen ∈ nums)
  else if betType = "column" then decide (o.column ∈ nums)
  else if betType = "red" then decide (o.color = "red")
  else if betType = "black" then decide (o.color = "black")
  else if betType = "even" then o.is_even
  else if betType = "odd" then !o.is_even && decide (o.number ≠ 0)
  else if betType = "low" then o.is_low
  else if betType = "high" then !o.is_low && decide (o.number ≠ 0)
  else false

/-- Second grading pass of `spin_wheel` (`main.py` lines 706-731): a textual
duplicate of the first-pass conditional chain, re-run before persisting each
wager ("Re-determine if this specific bet is a winner"). -/
def isWinnerSecondPass (o : SpinOutcome) (betType : String) (nums : List Int) : Bool :=
  if betType = "straight" then decide (o.number ∈ nums)
  else if betType = "split" then decide (o.number ∈ nums)
  else if betType = "street" then decide (o.number ∈ nums)
  else if betType = "corner" then decide (o.number ∈ nums)
  else if betType = "line" then decide (o.number ∈ nums)
  else if betType = "dozen" then decide (o.dozen ∈ nums)
  else if betType = "column" then decide (o.column ∈ nums)
  else if betType = "red" then decide (o.color = "red")
  else if betType = "black" then decide (o.color = "black")
  else if betType = "even" then o.is_even
  else if betType = "odd" then !o.is_even && decide (o.number ≠ 0)
  else if betType = "low" then o.is_low
  else if betType = "high" then !o.is_low && decide (o.number ≠ 0)
  else false

/-- One element of the `payouts` list built by the first pass
(`main.py` lines 637-642). -/
structure PayoutEntry where
  amount : ℚ
  bet_type : String
  bet_amount : ℚ
  winnings : ℚ
  deriving Repr, DecidableEq

/-- `total_wagered` accumulated by the first-pass loop (`main.py` line 600):
every bet's amount is added, winner or not. -/
def spinTotalWagered (bets : List FBet) : ℚ :=
  (bets.map (·.amount)).sum

/-- `total_won` accumulated by the first-pass loop (`main.py` line 635):
for each winner, `bet_amount + potential_winnings` is added. -/
def spinTotalWon (o : SpinOutcome) : List FBet → ℚ
  | [] => 0
  | b :: rest =>
    (if isWinnerFirstPass o b.betType b.numbers then
      b.amount + b.amount * getPayoutOdds b.betType
    else 0) + spinTotalWon o rest

/-- `winning_bets` counter of the first-pass loop (`main.py` line 633). -/
def spinWinningBets (o : SpinOutcome) : List FBet → Nat
  | [] => 0
  | b :: rest =>
    (if isWinnerFirstPass o b.betType b.numbers then 1 else 0) + spinWinningBets o rest

/-- The `payouts` list built by the first-pass loop (`main.py` lines 637-642):
one entry per winning bet, in bet order. -/
def spinPayouts (o : SpinOutcome) : List FBet → List PayoutEntry
  | [] => []
  | b :: rest =>
    if isWinnerFirstPass o b.betType b.numbers then
      { amount := b.amount + b.amount * getPayoutOdds b.betType
        bet_type := b.betType
        bet_amount := b.amount
        winnings := b.amount * getPayoutOdds b.betType } :: spinPayouts o rest
    else spinPayouts o rest

/-- A row of the `bets` table as written by `spin_wheel`'s second pass
(`main.py` lines 737-748); `is_winner` is nullable (`None` until graded). -/
structure BetRow where
  bet_type : String
  numbers : List Int
  amount : ℚ
  potential_payout : ℚ
  payout_odds : ℚ
  is_winner : Option Bool
  actual_payout : ℚ
  deriving Repr, DecidableEq

/-- Default `PayoutEntry`, only used to express the guarded list index
`payouts[payout_index]` of `main.py` line 734. -/
def dfltPayoutEntry : PayoutEntry := ⟨0, "", 0, 0⟩

/-- Second pass of `spin_wheel` (`main.py` lines 692-748): walk the bets again
with a `payout_index` cursor into the first-pass `payouts` list and build the
row inserted for each bet.  A winner's `actual_payout` is
`payouts[payout_index]["amount"]` when the index is in range, else the
recomputed `bet_amount + potential_winnings` fallback. -/
def secondPassRows (o : SpinOutcome) (payouts : List PayoutEntry) :
    Nat → List FBet → List BetRow
  | _, [] => []
  | idx, b :: rest =>
    let odds := getPayoutOdds b.betType
    let potential := b.amount * odds
    if isWinnerSecondPass o b.betType b.numbers then
      { bet_type := b.betType
        numbers := b.numbers
        amount := b.amount
        potential_payout := potential
        payout_odds := odds
        is_winner := some true
        actual_payout :=
          if idx < payouts.length then (payouts.getD idx dfltPayoutEntry).amount
          else b.amount + potential } :: secondPassRows o payouts (idx + 1) rest
    else
      { bet_type := b.betType
        numbers := b.numbers
        amount := b.amount
        potential_payout := potential
        payout_odds := odds
        is_winner := some false
        actual_payout := 0 } :: secondPassRows o payouts idx rest

/-- The rows `spin_wheel` inserts into the `bets` table, in order
(`main.py` lines 691-748). -/
def spinInsertedRows (o : SpinOutcome) (bets : List FBet) : List BetRow :=
  secondPassRows o (spinPayouts o bets) 0 bets

/-- Reference description of one grading: the winner flag and the
`actual_payout` the settlement assigns to a single bet. -/
def gradeOne (o : SpinOutcome) (b : FBet) : Bool × ℚ :=
  (isWinnerFirstPass o b.betType b.numbers,
   if isWinnerFirstPass o b.betType b.numbers then
     b.amount + b.amount * getPayoutOdds b.betType
   else 0)

/-- The `players` table row for the requesting player. -/
structure PlayerRow where
  balance : ℚ
  total_winnings : ℚ
  total_wagered : ℚ
  games_played : Int
  deriving Repr, DecidableEq

/-- The slice of the persistent store that `spin_wheel` reads and writes:
the player's `players` row and the player's rows of the `bets` table. -/
structure SpinStore where
  player : PlayerRow
  bets : List BetRow
  deriving Repr, DecidableEq

/-- The `/game/spin` request body (`main.py` lines 544-546): an optional
caller-asserted balance, the frontend bets, and an optional caller-supplied
("animation") winning number. -/
structure SpinRequest where
  balance : Option ℚ
  bets : List FBet
  winning_number : Option Int
  deriving Repr, DecidableEq

/-- Errors `spin_wheel` can surface: the explicit 400 for an empty bet list
(`main.py` line 549) and the generic 500 raised by the outer handler when a
storage write throws (`main.py` lines 783-785). -/
inductive SpinError where
  | noBets
  | insertFailed
  deriving Repr, DecidableEq

/-- The JSON body returned by `spin_wheel` on success
(`main.py` lines 765-780). -/
structure SpinResponse where
  winning_number : Int
  color : String
  is_even : Bool
  is_low : Bool
  dozen : Int
  column : Int
  payouts : List PayoutEntry
  total_wagered : ℚ
  total_won : ℚ
  net_result : ℚ
  new_balance : ℚ
  win_rate : ℚ
  winning_bets : Nat
  total_bets : Nat
  deriving Repr, DecidableEq

/-- Round a rational to 2 decimal places, modelling Python's `round(x, 2)`
(`main.py` lines 292 and 777). -/
def round2 (q : ℚ) : ℚ :=
  (round (q * 100) : ℤ) / 100

/-- Win-rate computation at the end of `spin_wheel` (`main.py` lines 750-757),
before the final `round(.., 2)`: filter the player's bet rows to those whose
`is_winner` is not null, count the winners, and divide — guarded so that the
division never runs with a zero denominator. -/
def spinWinRate (rows : List BetRow) : ℚ :=
  let processed := rows.filter (fun r => r.is_winner ≠ none)
  let winners := (processed.filter (fun r => r.is_winner = some true)).length
  if processed.length > 0 then (winners : ℚ) / (processed.length : ℚ) * 100 else 0

/-- Win-rate as computed by `get_player_stats` (`main.py` lines 273-292):
same filter, count and guard as the settlement path, rounded to 2 decimal
places when placed in the response. -/
def playerStatsWinRate (rows : List BetRow) : ℚ :=
  let processed := rows.filter (fun r => r.is_winner ≠ none)
  let winners := (processed.filter (fun r => r.is_winner = some true)).length
  round2 (if processed.length > 0 then (winners : ℚ) / (processed.length : ℚ) * 100 else 0)

/-- Success path of `spin_wheel` after all bet rows were inserted
(`main.py` lines 750-780): compute the win-rate over the now-updated `bets`
table and build the response. -/
def spinFinish (n : Int) (o : SpinOutcome) (bets : List FBet)
    (new_balance : ℚ) (st1 : SpinStore) (rows : List BetRow) :
    Except SpinError SpinResponse × SpinStore :=
  let st2 : SpinStore := { st1 with bets := st1.bets ++ rows }
  (Except.ok
    { winning_number := n
      color := o.color
      is_even := o.is_even
      is_low := o.is_low
      dozen := o.dozen
      column := o.column
      payouts := spinPayouts o bets
      total_wagered := spinTotalWagered bets
      total_won := spinTotalWon o bets
      net_result := spinTotalWon o bets - spinTotalWagered bets
      new_balance := new_balance
      win_rate := round2 (spinWinRate st2.bets)
      winning_bets := spinWinningBets o bets
      total_bets := bets.length }, st2)

/-- The `/game/spin` endpoint `spin_wheel` (`main.py` lines 536-785) as a
state-passing function.

Parameters beyond the request and store:
* `userBalance` — `current_user.balance`, the balance snapshot attached to the
  authenticated user (default for the caller-asserted `request["balance"]`);
* `draw` — the value `random.randint(0, 36)` would produce, used only when the
  request carries no `winning_number`;
* `failInsertAt` — fault injection: `some k` makes the `k`-th `bets`-table
  insert of the second pass raise, as a storage failure would.  The code has
  no try/except around these inserts, so the exception propagates to the outer
  handler (`main.py` line 783) after the player row was already updated: no
  compensating balance write occurs.

Steps, in source order: reject empty bets; choose the winning number
(caller-supplied preferred); classify it; first grading pass (totals and
`payouts`); `new_balance = initial_balance + net_result` where
`initial_balance` is the caller-asserted balance when present
(lines 544, 649); re-fetch player stats (line 653 — the freshly read
`balance` field is fetched but never used); write the player row (lines
664-669); second grading pass inserting one row per bet (lines 691-748);
win-rate and response (lines 750-780). -/
def spinWheel (req : SpinRequest) (userBalance : ℚ) (draw : Int)
    (failInsertAt : Option Nat) (st : SpinStore) :
    Except SpinError SpinResponse × SpinStore :=
  let initial_balance := req.balance.getD userBalance
  if req.bets = [] then (Except.error SpinError.noBets, st)
  else
    let n := req.winning_number.getD draw
    let o := spinClassify n
    let total_wagered := spinTotalWagered req.bets
    let total_won := spinTotalWon o req.bets
    let net_result := total_won - total_wagered
    let new_balance := initial_balance + net_result
    let p := st.player
    let p' : PlayerRow :=
      { balance := new_balance
        total_winnings := p.total_winnings + net_result
        total_wagered := p.total_wagered + total_wagered
        games_played := p.games_played + 1 }
    let st1 : SpinStore := { st with player := p' }
    let rows := spinInsertedRows o req.bets
    match failInsertAt with
    | some k =>
      if k < rows.length then
        (Except.error SpinError.insertFailed, { st1 with bets := st1.bets ++ rows.take k })
      else
        spinFinish n o req.bets new_balance st1 rows
    | none => spinFinish n o req.bets new_balance st1 rows

/-! ### `services/game_engine.py` — `GameEngine` -/

/-- The 13 bet categories (`models/game.py`, `BetType`). -/
inductive BetType where
  | straight | split | street | corner | line
  | dozen | column | red | black | even | odd | low | high
  deriving Repr, DecidableEq

/-- Payout multipliers (`GameEngine.__init__`, `payouts` dict; identical in
`RouletteEngine.__init__`, `payout_multipliers`). -/
def enginePayoutOdds : BetType → ℚ
  | .straight => 35
  | .split => 17
  | .street => 11
  | .corner => 8
  | .line => 5
  | .dozen => 2
  | .column => 2
  | .red => 1
  | .black => 1
  | .even => 1
  | .odd => 1
  | .low => 1
  | .high => 1

/-- A bet as the engines see it (`models/game.py`, `Bet`): category, chosen
numbers, stake, and the `potential_payout` field `place_bet` fills in. -/
structure EngineBet where
  bet_type : BetType
  numbers : List Int
  amount : ℚ
  potential_payout : ℚ
  deriving Repr, DecidableEq

/-- A spin result as built by `GameEngine.spin_wheel` / `RouletteEngine.spin`
(`models/game.py`, `SpinResult`, identity fields omitted). -/
structure EngineSpinResult where
  winning_number : Int
  color : String
  is_even : Bool
  is_low : Bool
  dozen : Int
  column : Int
  deriving Repr, DecidableEq

/-- Classification in `GameEngine.spin_wheel` (`game_engine.py` lines
101-113): same attribute formulas, written with an `== 0` guard. -/
def geClassify (n : Int) : EngineSpinResult :=
  { winning_number := n
    color := if n = 0 then "green" else if n ∈ redNumbers then "red" else "black"
    is_even := decide (n ≠ 0 ∧ n % 2 = 0)
    is_low := decide (1 ≤ n ∧ n ≤ 18)
    dozen := if n = 0 then 0 else (n - 1) / 12 + 1
    column := if n = 0 then 0 else (n - 1) % 3 + 1 }

/-- `GameEngine._are_adjacent` (`game_engine.py` lines 183-187): the
simplified adjacency test `abs(num1 - num2) == 1 or abs(num1 - num2) == 3`,
with no row-boundary handling. -/
def geAreAdjacent (num1 num2 : Int) : Bool :=
  (num1 - num2).natAbs = 1 || (num1 - num2).natAbs = 3

/-- `GameEngine._is_valid_street` (`game_engine.py` lines 189-196): sort a
copy (`sorted(numbers)`) and require three consecutive values. -/
def geIsValidStreet (numbers : List Int) : Bool :=
  if numbers.length ≠ 3 then false
  else
    match numbers.insertionSort (· ≤ ·) with
    | [a, b, c] => decide (b = a + 1) && decide (c = b + 1)
    | _ => false

/-- `GameEngine._is_valid_corner` (lines 198-203): only the length is
checked ("Simplified corner validation"). -/
def geIsValidCorner (numbers : List Int) : Bool :=
  numbers.length = 4

/-- `GameEngine._is_valid_line` (lines 205-210): only the length is
checked. -/
def geIsValidLine (numbers : List Int) : Bool :=
  numbers.length = 6

/-- `GameEngine.validate_bet` (`game_engine.py` lines 35-90): returns
`(ok, reason)`. -/
def geValidateBet (bet_type : BetType) (numbers : List Int) (amount : ℚ)
    (player_balance : ℚ) : Bool × String :=
  if amount ≤ 0 then (false, "Bet amount must be positive")
  else if amount > player_balance then (false, "Insufficient balance")
  else
    match bet_type with
    | .straight =>
      if numbers.length ≠ 1 then (false, "Straight bet requires exactly 1 number")
      else if !(decide (0 ≤ numbers.headI ∧ numbers.headI ≤ 36)) then
        (false, "Invalid number for straight bet")
      else (true, "Valid bet")
    | .split =>
      if numbers.length ≠ 2 then (false, "Split bet requires exactly 2 numbers")
      else if !geAreAdjacent numbers.headI numbers.tail.headI then
        (false, "Numbers must be adjacent for split bet")
      else (true, "Valid bet")
    | .street =>
      if numbers.length ≠ 3 then (false, "Street bet requires exactly 3 numbers")
      else if !geIsValidStreet numbers then (false, "Invalid street bet numbers")
      else (true, "Valid bet")
    | .corner =>
      if numbers.length ≠ 4 then (false, "Corner bet requires exactly 4 numbers")
      else if !geIsValidCorner numbers then (false, "Invalid corner bet numbers")
      else (true, "Valid bet")
    | .line =>
      if numbers.length ≠ 6 then (false, "Line bet requires exactly 6 numbers")
      else if !geIsValidLine numbers then (false, "Invalid line bet numbers")
      else (true, "Valid bet")
    | .red | .black | .even | .odd | .low | .high =>
      if numbers ≠ [] then (false, "bet should not specify numbers")
      else (true, "Valid bet")
    | .dozen =>
      if numbers.length ≠ 1 ∨ numbers.headI ∉ ([1, 2, 3] : List Int) then
        (false, "Dozen bet requires dozen number (1, 2, or 3)")
      else (true, "Valid bet")
    | .column =>
      if numbers.length ≠ 1 ∨ numbers.headI ∉ ([1, 2, 3] : List Int) then
        (false, "Column bet requires column number (1, 2, or 3)")
      else (true, "Valid bet")

/-- `GameEngine._is_winning_bet` (`game_engine.py` lines 143-181). -/
def geIsWinningBet (bet : EngineBet) (sr : EngineSpinResult) : Bool :=
  match bet.bet_type with
  | .straight => decide (sr.winning_number ∈ bet.numbers)
  | .split | .street | .corner | .line => decide (sr.winning_number ∈ bet.numbers)
  | .red => decide (sr.winning_number ∈ redNumbers)
  | .black => decide (sr.winning_number ∈ blackNumbers)
  | .even => decide (sr.winning_number ≠ 0 ∧ sr.winning_number % 2 = 0)
  | .odd => decide (sr.winning_number ≠ 0 ∧ sr.winning_number % 2 = 1)
  | .low => decide (1 ≤ sr.winning_number ∧ sr.winning_number ≤ 18)
  | .high => decide (19 ≤ sr.winning_number ∧ sr.winning_number ≤ 36)
  | .dozen =>
    match bet.numbers with
    | [d] => decide (sr.dozen = d)
    | _ => false
  | .column =>
    match bet.numbers with
    | [c] => decide (sr.column = c)
    | _ => false

/-- A payout record (`models/game.py`, `Payout`, identity fields omitted). -/
structure EnginePayout where
  amount : ℚ
  winning_numbers : List Int
  deriving Repr, DecidableEq

/-- `GameEngine.calculate_payouts` (`game_engine.py` lines 127-141): winners
receive `bet.amount + bet.amount * self.payouts[bet.bet_type]`; losing bets
produce no payout record. -/
def geCalculatePayouts (sr : EngineSpinResult) : List EngineBet → List EnginePayout
  | [] => []
  | bet :: rest =>
    if geIsWinningBet bet sr then
      { amount := bet.amount + bet.amount * enginePayoutOdds bet.bet_type
        winning_numbers := [sr.winning_number] } :: geCalculatePayouts sr rest
    else geCalculatePayouts sr rest

/-! ### `services/roulette_engine.py` — `RouletteEngine` -/

/-- Classification in `RouletteEngine.spin` (`roulette_engine.py` lines
59-71): same formulas, written with `> 0` guards. -/
def reClassify (n : Int) : EngineSpinResult :=
  { winning_number := n
    color := if n = 0 then "green" else if n ∈ redNumbers then "red" else "black"
    is_even := decide (n % 2 = 0 ∧ n ≠ 0)
    is_low := decide (1 ≤ n ∧ n ≤ 18)
    dozen := if n > 0 then (n - 1) / 12 + 1 else 0
    column := if n > 0 then (n - 1) % 3 + 1 else 0 }

/-- `RouletteEngine._are_adjacent_numbers` (`roulette_engine.py` lines
156-160): the simplified test `abs(numbers[0] - numbers[1]) == 1`; only
reached with exactly two numbers. -/
def reAreAdjacentNumbers (numbers : List Int) : Bool :=
  match numbers with
  | a :: b :: _ => (a - b).natAbs = 1
  | _ => false

/-- `RouletteEngine._are_street_numbers` (`roulette_engine.py` lines
162-166) sorts the list **in place** (`numbers.sort()`) and then checks three
consecutive values; this returns both the verdict and the list as left behind
by the call. -/
def reAreStreetNumbers (numbers : List Int) : Bool × List Int :=
  let sortedNums := numbers.insertionSort (· ≤ ·)
  (match sortedNums with
   | [a, b, c] => decide (b = a + 1) && decide (c = b + 1)
   | _ => false, sortedNums)

/-- `RouletteEngine._validate_bet` (`roulette_engine.py` lines 106-121),
modelled with the post-call bet as the second component because the street
branch mutates `bet.numbers` in place via `numbers.sort()` (only reached when
the stake is positive and the list has exactly 3 elements, by short-circuit
evaluation of `len(bet.numbers) == 3 and self._are_street_numbers(...)`).
Categories other than those matched fall through to `return True`. -/
def reValidateBet (bet : EngineBet) : Bool × EngineBet :=
  if bet.amount ≤ 0 then (false, bet)
  else
    match bet.bet_type with
    | .straight =>
      (decide (bet.numbers.length = 1) &&
        decide (0 ≤ bet.numbers.headI ∧ bet.numbers.headI ≤ 36), bet)
    | .split =>
      (decide (bet.numbers.length = 2) && reAreAdjacentNumbers bet.numbers, bet)
    | .street =>
      if bet.numbers.length = 3 then
        let r := reAreStreetNumbers bet.numbers
        (r.1, { bet with numbers := r.2 })
      else (false, bet)
    | .red | .black | .even | .odd | .low | .high =>
      (decide (bet.numbers.length = 0), bet)
    | _ => (true, bet)

/-- `RouletteEngine.place_bet` (`roulette_engine.py` lines 35-52), bet-field
mutation only: sets `bet.potential_payout = bet.amount * multiplier`
(the winnings alone, the stake is not included). -/
def rePlaceBet (bet : EngineBet) : EngineBet :=
  { bet with potential_payout := bet.amount * enginePayoutOdds bet.bet_type }

/-- `RouletteEngine._is_winning_bet` (`roulette_engine.py` lines 123-154). -/
def reIsWinningBet (bet : EngineBet) (sr : EngineSpinResult) : Bool :=
  match bet.bet_type with
  | .straight | .split | .street | .corner | .line =>
    decide (sr.winning_number ∈ bet.numbers)
  | .dozen =>
    match bet.numbers with
    | d :: _ => decide (sr.dozen = d)
    | [] => false
  | .column =>
    match bet.numbers with
    | c :: _ => decide (sr.column = c)
    | [] => false
  | .red => decide (sr.color = "red")
  | .black => decide (sr.color = "black")
  | .even => sr.is_even && decide (sr.winning_number ≠ 0)
  | .odd => !sr.is_even && decide (sr.winning_number ≠ 0)
  | .low => sr.is_low
  | .high => !sr.is_low && decide (sr.winning_number ≠ 0)

/-- `RouletteEngine.calculate_payouts` (`roulette_engine.py` lines 86-104):
each winner's payout `amount` is the bet's stored `potential_payout`; losers
produce no record. -/
def reCalculatePayouts (sr : EngineSpinResult) : List EngineBet → List EnginePayout
  | [] => []
  | bet :: rest =>
    if reIsWinningBet bet sr then
      { amount := bet.potential_payout
        winning_numbers := [sr.winning_number] } :: reCalculatePayouts sr rest
    else reCalculatePayouts sr rest

/-! ### `services/database.py` — `DatabaseService.save_spin_result` -/

/-- A `game_rounds` table row (outcome fields nullable until a spin is
saved). -/
structure RoundRow where
  id : Nat
  phase : String
  winning_number : Option Int
  color : Option String
  is_even : Option Bool
  is_low : Option Bool
  dozen : Option Int
  roulette_column : Option Int
  deriving Repr, DecidableEq

/-- `DatabaseService.save_spin_result` (`database.py` lines 139-156): an
unconditional `update ... eq("id", round_id)` — every row with the matching
id receives the new outcome fields and phase `"completed"`, with no check of
the row's current phase and no error channel (the Python body swallows any
exception with `except: pass` and returns `None`). -/
def saveSpinResult (round_id : Nat) (winning_number : Int) (color : String)
    (is_even is_low : Bool) (dozen column : Int)
    (rounds : List RoundRow) : List RoundRow :=
  rounds.map (fun r =>
    if r.id = round_id then
      { r with
        winning_number := some winning_number
        color := some color
        is_even := some is_even
        is_low := some is_low
        dozen := some dozen
        roulette_column := some column
        phase := "completed" }
    else r)

/-- The row value `save_spin_result` writes for a matching round. -/
def overwrittenRound (r : RoundRow) (winning_number : Int) (color : String)
    (is_even is_low : Bool) (dozen column : Int) : RoundRow :=
  { r with
    winning_number := some winning_number
    color := some color
    is_even := some is_even
    is_low := some is_low
    dozen := some dozen
    roulette_column := some column
    phase := "completed" }

/-! ### Spec-side definition for the split-adjacency refinement claim -/

/-- Modelled from the spec (§4.3), for comparison with the code's adjacency
tests: two numbers are adjacent on the 3-wide/12-row roulette grid iff they
are horizontal neighbors within the same row, or vertical neighbors 3 apart,
with 0 adjacent only to 1, 2 and 3. -/
def specGridAdjacent (a b : Int) : Bool :=
  (decide (a = 0) && decide (b = 1 ∨ b = 2 ∨ b = 3)) ||
  (decide (b = 0) && decide (a = 1 ∨ a = 2 ∨ a = 3)) ||
  (decide (1 ≤ a ∧ a ≤ 36) && decide (1 ≤ b ∧ b ≤ 36) &&
    ((decide ((a - b).natAbs = 1) && decide ((a - 1) / 3 = (b - 1) / 3)) ||
     decide ((a - b).natAbs = 3)))

/-! ### Helper definitions and lemmas -/

/-- The payout entry the first pass builds for a winning bet. -/
def spinEntryOf (b : FBet) : PayoutEntry :=
  { amount := b.amount + b.amount * getPayoutOdds b.betType
    bet_type := b.betType
    bet_amount := b.amount
    winnings := b.amount * getPayoutOdds b.betType }

/-- The `bets`-table row settlement persists for a bet, described through the
single-grading reference `gradeOne`. -/
def spinRowOf (o : SpinOutcome) (b : FBet) : BetRow :=
  { bet_type := b.betType
    numbers := b.numbers
    amount := b.amount
    potential_payout := b.amount * getPayoutOdds b.betType
    payout_odds := getPayoutOdds b.betType
    is_winner := some (gradeOne o b).1
    actual_payout := (gradeOne o b).2 }

lemma isWinnerSecondPass_eq_firstPass :
    isWinnerSecondPass = isWinnerFirstPass := rfl

lemma spinPayouts_eq_filter_map (o : SpinOutcome) :
    ∀ bets : List FBet,
      spinPayouts o bets =
        (bets.filter (fun b => isWinnerFirstPass o b.betType b.numbers)).map
          spinEntryOf
  | [] => rfl
  | b :: rest => by
    by_cases hw : isWinnerFirstPass o b.betType b.numbers
    · simp [spinPayouts, hw, List.filter_cons, spinPayouts_eq_filter_map o rest,
        spinEntryOf]
    · simp [spinPayouts, hw, List.filter_cons, spinPayouts_eq_filter_map o rest]

lemma drop_cons_parts {α : Type} (d : α) :
    ∀ (l : List α) (i : ℕ) (x : α) (t : List α),
      l.drop i = x :: t →
        i < l.length ∧ l.getD i d = x ∧ l.drop (i + 1) = t := by
  intro l
  induction l with
  | nil => intro i x t h; simp at h
  | cons a l ih =>
    intro i x t h
    cases i with
    | zero =>
      simp only [List.drop] at h
      cases h
      exact ⟨by simp, rfl, by simp⟩
    | succ i =>
      have h' : l.drop i = x :: t := h
      obtain ⟨h1, h2, h3⟩ := ih i x t h'
      exact ⟨by simpa using Nat.succ_lt_succ h1, h2, h3⟩

lemma secondPassRows_eq (o : SpinOutcome) :
    ∀ (bets : List FBet) (payouts : List PayoutEntry) (idx : ℕ),
      payouts.drop idx = spinPayouts o bets →
        secondPassRows o payouts idx bets = bets.map (spinRowOf o)
  | [], _, _, _ => rfl
  | b :: rest, payouts, idx, h => by
    by_cases hw : isWinnerFirstPass o b.betType b.numbers
    · rw [spinPayouts] at h
      simp only [hw, if_true] at h
      obtain ⟨hlt, hget, hdrop⟩ := drop_cons_parts dfltPayoutEntry payouts idx _ _ h
      simp only [secondPassRows, isWinnerSecondPass_eq_firstPass, hw, if_true,
        List.map_cons, hlt, hget]
      refine congrArg₂ List.cons ?_ (secondPassRows_eq o rest payouts (idx + 1) hdrop)
      simp [spinRowOf, gradeOne, hw]
    · rw [spinPayouts] at h
      simp only [hw, if_false] at h
      simp only [secondPassRows, isWinnerSecondPass_eq_firstPass, hw, if_false,
        List.map_cons]
      refine congrArg₂ List.cons ?_ (secondPassRows_eq o rest payouts idx h)
      simp [spinRowOf, gradeOne, hw]

/-- The rows persisted by the second pass are exactly one `spinRowOf` row per
bet, in order. -/
lemma spinInsertedRows_eq (o : SpinOutcome) (bets : List FBet) :
    spinInsertedRows o bets = bets.map (spinRowOf o) :=
  secondPassRows_eq o bets (spinPayouts o bets) 0 rfl

/-! ### Claim theorems -/

/-- C4: Grading is deterministic and idempotent.  The second-pass
winner-determination chain of `spin_wheel` is the same function as the
first-pass chain, and the batch of rows persisted by the second pass assigns
to every wager exactly the winner flag and payout amount of the single
reference grading `gradeOne` — the same flag counted and the same amount
aggregated by the first pass (`spinPayouts`, `spinTotalWon`,
`spinWinningBets` are all driven by `isWinnerFirstPass`/`gradeOne`), so the
two grading passes inside one settlement agree on every wager. -/
theorem grading_deterministic_two_passes_agree :
    (∀ (o : SpinOutcome) (bt : String) (nums : List Int),
      isWinnerSecondPass o bt nums = isWinnerFirstPass o bt nums) ∧
    (∀ (o : SpinOutcome) (bets : List FBet),
      spinInsertedRows o bets = bets.map (spinRowOf o)) ∧
    (∀ (o : SpinOutcome) (bets : List FBet),
      spinPayouts o bets =
        (bets.filter (fun b => (gradeOne o b).1)).map spinEntryOf) := by
  refine ⟨fun o bt nums => rfl, spinInsertedRows_eq, fun o bets => ?_⟩
  simpa [gradeOne] using spinPayouts_eq_filter_map o bets

/-- C3 counterexample: in `RouletteEngine.calculate_payouts` a winning
straight wager of stake 5 (placed through `place_bet`, which stores
`potential_payout = 5 × 35 = 175`) is paid 175, not the
`stake + winnings = 5 + 175 = 180` the claim requires of every payout-computing
code path. -/
theorem roulette_winner_payout_drops_stake :
    reCalculatePayouts (reClassify 7) [rePlaceBet ⟨.straight, [7], 5, 0⟩] =
      [{ amount := 175, winning_numbers := [7] }] ∧
    reIsWinningBet (rePlaceBet ⟨.straight, [7], 5, 0⟩) (reClassify 7) = true ∧
    (175 : ℚ) ≠ 5 + 5 * 35 := by
  refine ⟨?_, ?_, ?_⟩ <;>
    (try simp [reCalculatePayouts, reClassify, rePlaceBet, reIsWinningBet,
      enginePayoutOdds]) <;> (try norm_num)

lemma geCalculatePayouts_eq (sr : EngineSpinResult) :
    ∀ bets : List EngineBet,
      geCalculatePayouts sr bets =
        (bets.filter (fun b => geIsWinningBet b sr)).map
          (fun b => { amount := b.amount + b.amount * enginePayoutOdds b.bet_type
                      winning_numbers := [sr.winning_number] })
  | [] => rfl
  | b :: rest => by
    by_cases hw : geIsWinningBet b sr
    · simp [geCalculatePayouts, hw, List.filter_cons, geCalculatePayouts_eq sr rest]
    · simp [geCalculatePayouts, hw, List.filter_cons, geCalculatePayouts_eq sr rest]

lemma reCalculatePayouts_eq (sr : EngineSpinResult) :
    ∀ bets : List EngineBet,
      reCalculatePayouts sr bets =
        (bets.filter (fun b => reIsWinningBet b sr)).map
          (fun b => { amount := b.potential_payout
                      winning_numbers := [sr.winning_number] })
  | [] => rfl
  | b :: rest => by
    by_cases hw : reIsWinningBet b sr
    · simp [reCalculatePayouts, hw, List.filter_cons, reCalculatePayouts_eq sr rest]
    · simp [reCalculatePayouts, hw, List.filter_cons, reCalculatePayouts_eq sr rest]

/-- C3 amended: in `GameEngine.calculate_payouts` and in both settlement
passes of `spin_wheel`, a winner's payout is `stake + stake × odds` (winnings
`stake × odds`), and a loser gets no payout record and an `actual_payout` of
0.  In `RouletteEngine.calculate_payouts`, however, a winner is paid the
bet's `potential_payout` — set by `place_bet` to `stake × odds`, the winnings
alone without the returned stake. -/
theorem payout_amounts_by_code_path :
    (∀ (sr : EngineSpinResult) (bets : List EngineBet),
      geCalculatePayouts sr bets =
        (bets.filter (fun b => geIsWinningBet b sr)).map
          (fun b => { amount := b.amount + b.amount * enginePayoutOdds b.bet_type
                      winning_numbers := [sr.winning_number] })) ∧
    (∀ (o : SpinOutcome) (bets : List FBet),
      spinPayouts o bets =
        (bets.filter (fun b => isWinnerFirstPass o b.betType b.numbers)).map
          spinEntryOf) ∧
    (∀ (o : SpinOutcome) (b : FBet),
      (gradeOne o b).2 =
        if (gradeOne o b).1 then b.amount + b.amount * getPayoutOdds b.betType
        else 0) ∧
    (∀ (sr : EngineSpinResult) (bets : List EngineBet),
      reCalculatePayouts sr bets =
        (bets.filter (fun b => reIsWinningBet b sr)).map
          (fun b => { amount := b.potential_payout
                      winning_numbers := [sr.winning_number] })) ∧
    (∀ b : EngineBet,
      (rePlaceBet b).potential_payout = b.amount * enginePayoutOdds b.bet_type) := by
  refine ⟨geCalculatePayouts_eq, spinPayouts_eq_filter_map, fun o b => rfl,
    reCalculatePayouts_eq, fun b => rfl⟩

/-- C1: the settlement endpoint computes the written balance from the
caller-asserted `request["balance"]`, not from the stored balance, and never
rejects on insufficiency.  Two settlements identical in stored balance (10),
bets (a 50 stake on red) and drawn number (0), differing only in the
caller-asserted balance (1000000 vs 50), both complete without error — even
though the freshly stored balance 10 is below the 50 stake — and write the
two different balances 999950 and 0. -/
theorem settlement_writes_client_asserted_balance :
    (spinWheel ⟨some 1000000, [⟨"red", 50, []⟩], some 0⟩ 10 0 none
        ⟨⟨10, 0, 0, 0⟩, []⟩).1.toOption.isSome = true ∧
    (spinWheel ⟨some 50, [⟨"red", 50, []⟩], some 0⟩ 10 0 none
        ⟨⟨10, 0, 0, 0⟩, []⟩).1.toOption.isSome = true ∧
    (spinWheel ⟨some 1000000, [⟨"red", 50, []⟩], some 0⟩ 10 0 none
        ⟨⟨10, 0, 0, 0⟩, []⟩).2.player.balance = 999950 ∧
    (spinWheel ⟨some 50, [⟨"red", 50, []⟩], some 0⟩ 10 0 none
        ⟨⟨10, 0, 0, 0⟩, []⟩).2.player.balance = 0 ∧
    (999950 : ℚ) ≠ 0 ∧ (10 : ℚ) < 50 := by
  refine ⟨?_, ?_, ?_, ?_, ?_, ?_⟩ <;>
    (try simp [spinWheel, spinFinish, spinTotalWagered, spinTotalWon,
      spinClassify, isWinnerFirstPass, isWinnerSecondPass, getPayoutOdds,
      redNumbers, spinInsertedRows, secondPassRows, spinPayouts,
      spinWinningBets, spinWinRate, round2, Except.toOption]) <;> (try norm_num)

/-- C2: a storage failure injected at the first wager-record insert — after
the balance write — leaves the balance at the freshly written post-settlement
value 90, not restored to the pre-settlement value 100: `spin_wheel` has no
compensating write around its `bets` inserts, the exception propagates to the
generic 500 handler. -/
theorem failed_wager_write_keeps_deducted_balance :
    (spinWheel ⟨none, [⟨"red", 10, []⟩], some 0⟩ 100 0 (some 0)
        ⟨⟨100, 0, 0, 0⟩, []⟩).1 = Except.error SpinError.insertFailed ∧
    (spinWheel ⟨none, [⟨"red", 10, []⟩], some 0⟩ 100 0 (some 0)
        ⟨⟨100, 0, 0, 0⟩, []⟩).2.player.balance = 90 ∧
    (90 : ℚ) ≠ 100 := by
  refine ⟨?_, ?_, ?_⟩ <;>
    (try simp [spinWheel, spinFinish, spinTotalWagered, spinTotalWon,
      spinClassify, isWinnerFirstPass, isWinnerSecondPass, getPayoutOdds,
      redNumbers, spinInsertedRows, secondPassRows, spinPayouts,
      spinWinningBets, spinWinRate, round2, Except.toOption]) <;> (try norm_num)

/-- C5: when the winning number is 0 — classified green, not even, not low,
dozen 0, column 0 — every structurally valid red/black/even/odd/low/high
wager and every dozen/column wager with selector 1, 2 or 3 is graded as
non-winning, in all three grading code paths (`spin_wheel`'s conditional
chain, `GameEngine._is_winning_bet`, `RouletteEngine._is_winning_bet`). -/
theorem zero_loses_all_outside_and_group_bets :
    ∀ (nums : List Int) (amt pp : ℚ),
      (isWinnerFirstPass (spinClassify 0) "red" nums = false ∧
       isWinnerFirstPass (spinClassify 0) "black" nums = false ∧
       isWinnerFirstPass (spinClassify 0) "even" nums = false ∧
       isWinnerFirstPass (spinClassify 0) "odd" nums = false ∧
       isWinnerFirstPass (spinClassify 0) "low" nums = false ∧
       isWinnerFirstPass (spinClassify 0) "high" nums = false ∧
       isWinnerFirstPass (spinClassify 0) "dozen" [1] = false ∧
       isWinnerFirstPass (spinClassify 0) "dozen" [2] = false ∧
       isWinnerFirstPass (spinClassify 0) "dozen" [3] = false ∧
       isWinnerFirstPass (spinClassify 0) "column" [1] = false ∧
       isWinnerFirstPass (spinClassify 0) "column" [2] = false ∧
       isWinnerFirstPass (spinClassify 0) "column" [3] = false) ∧
      (geIsWinningBet ⟨.red, nums, amt, pp⟩ (geClassify 0) = false ∧
       geIsWinningBet ⟨.black, nums, amt, pp⟩ (geClassify 0) = false ∧
       geIsWinningBet ⟨.even, nums, amt, pp⟩ (geClassify 0) = false ∧
       geIsWinningBet ⟨.odd, nums, amt, pp⟩ (geClassify 0) = false ∧
       geIsWinningBet ⟨.low, nums, amt, pp⟩ (geClassify 0) = false ∧
       geIsWinningBet ⟨.high, nums, amt, pp⟩ (geClassify 0) = false ∧
       geIsWinningBet ⟨.dozen, [1], amt, pp⟩ (geClassify 0) = false ∧
       geIsWinningBet ⟨.dozen, [2], amt, pp⟩ (geClassify 0) = false ∧
       geIsWinningBet ⟨.dozen, [3], amt, pp⟩ (geClassify 0) = false ∧
       geIsWinningBet ⟨.column, [1], amt, pp⟩ (geClassify 0) = false ∧
       geIsWinningBet ⟨.column, [2], amt, pp⟩ (geClassify 0) = false ∧
       geIsWinningBet ⟨.column, [3], amt, pp⟩ (geClassify 0) = false) ∧
      (reIsWinningBet ⟨.red, nums, amt, pp⟩ (reClassify 0) = false ∧
       reIsWinningBet ⟨.black, nums, amt, pp⟩ (reClassify 0) = false ∧
       reIsWinningBet ⟨.even, nums, amt, pp⟩ (reClassify 0) = false ∧
       reIsWinningBet ⟨.odd, nums, amt, pp⟩ (reClassify 0) = false ∧
       reIsWinningBet ⟨.low, nums, amt, pp⟩ (reClassify 0) = false ∧
       reIsWinningBet ⟨.high, nums, amt, pp⟩ (reClassify 0) = false ∧
       reIsWinningBet ⟨.dozen, [1], amt, pp⟩ (reClassify 0) = false ∧
       reIsWinningBet ⟨.dozen, [2], amt, pp⟩ (reClassify 0) = false ∧
       reIsWinningBet ⟨.dozen, [3], amt, pp⟩ (reClassify 0) = false ∧
       reIsWinningBet ⟨.column, [1], amt, pp⟩ (reClassify 0) = false ∧
       reIsWinningBet ⟨.column, [2], amt, pp⟩ (reClassify 0) = false ∧
       reIsWinningBet ⟨.column, [3], amt, pp⟩ (reClassify 0) = false) := by
  intro nums amt pp
  refine ⟨⟨?_, ?_, ?_, ?_, ?_, ?_, ?_, ?_, ?_, ?_, ?_, ?_⟩,
    ⟨?_, ?_, ?_, ?_, ?_, ?_, ?_, ?_, ?_, ?_, ?_, ?_⟩,
    ⟨?_, ?_, ?_, ?_, ?_, ?_, ?_, ?_, ?_, ?_, ?_, ?_⟩⟩ <;>
    simp [isWinnerFirstPass, spinClassify, geIsWinningBet, geClassify,
      reIsWinningBet, reClassify, redNumbers, blackNumbers]

/-- C6 counterexample: the split wager on 3 and 4 — not adjacent on the
3-wide/12-row grid — is accepted by both validators (`GameEngine` via
`abs diff ∈ {1, 3}`, `RouletteEngine` via `abs diff == 1`), refuting the
claimed equivalence with grid adjacency. -/
theorem split_3_4_accepted_despite_nonadjacency :
    (geValidateBet .split [3, 4] 10 100).1 = true ∧
    (reValidateBet ⟨.split, [3, 4], 10, 0⟩).1 = true ∧
    specGridAdjacent 3 4 = false := by
  decide

/-- C6 amended: split validation checks only the absolute difference of the
two numbers — `GameEngine.validate_bet` accepts exactly when the stake checks
pass and `|a − b| ∈ {1, 3}`, and `RouletteEngine._validate_bet` accepts
exactly when the stake is positive and `|a − b| = 1`; the grid layout (row
boundaries, the special adjacency of 0) is not consulted, so non-adjacent
pairs such as 3 and 4 are accepted. -/
theorem split_validation_is_abs_difference_only :
    ∀ (a b : Int) (amt bal pp : ℚ),
      (geValidateBet .split [a, b] amt bal).1 =
        (decide (0 < amt) && decide (amt ≤ bal) &&
          (decide ((a - b).natAbs = 1) || decide ((a - b).natAbs = 3))) ∧
      (reValidateBet ⟨.split, [a, b], amt, pp⟩).1 =
        (decide (0 < amt) && decide ((a - b).natAbs = 1)) := by
  intro a b amt bal pp
  constructor
  · by_cases h0 : amt ≤ 0
    · have h0' : ¬ 0 < amt := not_lt.mpr h0
      simp [geValidateBet, h0, h0']
    · have h0' : 0 < amt := not_le.mp h0
      by_cases h1 : bal < amt
      · have h1' : ¬ amt ≤ bal := not_le.mpr h1
        simp [geValidateBet, h0, h1, h0', h1']
      · have h1' : amt ≤ bal := not_lt.mp h1
        by_cases hA : (a - b).natAbs = 1 <;> by_cases hB : (a - b).natAbs = 3 <;>
          simp [geValidateBet, geAreAdjacent, h0, h1, h0', h1', hA, hB,
            List.headI]
  · by_cases h0 : amt ≤ 0
    · have h0' : ¬ 0 < amt := not_lt.mpr h0
      simp [reValidateBet, h0, h0']
    · have h0' : 0 < amt := not_le.mp h0
      by_cases hA : (a - b).natAbs = 1 <;>
        simp [reValidateBet, reAreAdjacentNumbers, h0, h0', hA]

/-- C7: the win-rate is computed over exactly the wagers whose grading
outcome has been set (`is_winner` not null); it is 0 when no such wager
exists, otherwise `winners / total × 100` rounded to 2 decimal places, and
the guarded division never runs with a zero denominator.  The settlement
response's `win_rate` and the player-stats computation agree on the
post-settlement bets table. -/
theorem win_rate_zero_guard_and_formula :
    (∀ rows : List BetRow,
      (rows.filter (fun r => r.is_winner ≠ none)).length = 0 →
        playerStatsWinRate rows = 0 ∧ round2 (spinWinRate rows) = 0) ∧
    (∀ rows : List BetRow,
      (rows.filter (fun r => r.is_winner ≠ none)).length ≠ 0 →
        playerStatsWinRate rows =
          round2
            ((((rows.filter (fun r => r.is_winner ≠ none)).filter
                  (fun r => r.is_winner = some true)).length : ℚ) /
              ((rows.filter (fun r => r.is_winner ≠ none)).length : ℚ) * 100) ∧
        round2 (spinWinRate rows) = playerStatsWinRate rows) ∧
    (∀ (req : SpinRequest) (ub : ℚ) (draw : Int) (st : SpinStore)
      (resp : SpinResponse) (st2 : SpinStore),
      spinWheel req ub draw none st = (Except.ok resp, st2) →
        resp.win_rate = round2 (spinWinRate st2.bets) ∧
        playerStatsWinRate st2.bets = round2 (spinWinRate st2.bets)) := by
  have hps : ∀ rows : List BetRow,
      playerStatsWinRate rows = round2 (spinWinRate rows) := fun _ => rfl
  have hr0 : round2 (0 : ℚ) = 0 := by
    simp [round2]
  refine ⟨?_, ?_, ?_⟩
  · intro rows h
    have hs : spinWinRate rows = 0 := by
      simp only [spinWinRate, h]
      norm_num
    rw [hps, hs, hr0]
    exact ⟨rfl, rfl⟩
  · intro rows h
    have hpos : 0 < (rows.filter (fun r => r.is_winner ≠ none)).length :=
      Nat.pos_of_ne_zero h
    have hs : spinWinRate rows =
        (((rows.filter (fun r => r.is_winner ≠ none)).filter
            (fun r => r.is_winner = some true)).length : ℚ) /
          ((rows.filter (fun r => r.is_winner ≠ none)).length : ℚ) * 100 := by
      simp only [spinWinRate]
      rw [if_pos hpos]
    rw [hps, hs]
    exact ⟨rfl, rfl⟩
  · intro req ub draw st resp st2 h
    by_cases hb : req.bets = []
    · simp [spinWheel, hb] at h
    · simp only [spinWheel, spinFinish, hb, if_false, ite_false,
        Prod.mk.injEq, Except.ok.injEq] at h
      obtain ⟨h1, h2⟩ := h
      subst h2
      subst h1
      exact ⟨rfl, rfl⟩

/-- C7 witness: concrete instances — empty table gives 0; a single graded
winner gives the rounded formula value; a settlement response's `win_rate`
matches the formula on the post-settlement table. -/
theorem win_rate_zero_guard_and_formula_witness :
    playerStatsWinRate [] = 0 ∧
    playerStatsWinRate [⟨"red", [], 10, 10, 1, some true, 20⟩] =
      round2
        (((([(⟨"red", [], 10, 10, 1, some true, 20⟩ : BetRow)].filter
              (fun r => r.is_winner ≠ none)).filter
              (fun r => r.is_winner = some true)).length : ℚ) /
          ((([(⟨"red", [], 10, 10, 1, some true, 20⟩ : BetRow)].filter
              (fun r => r.is_winner ≠ none)).length : ℚ)) * 100) ∧
    (⟨0, "green", false, false, 0, 0, [], 10, 0, -10, 90, 0, 0, 1⟩ :
        SpinResponse).win_rate =
      round2 (spinWinRate [⟨"red", [], 10, 10, 1, some false, 0⟩]) :=
  ⟨(win_rate_zero_guard_and_formula.1 [] (by simp)).1,
   (win_rate_zero_guard_and_formula.2.1
      [⟨"red", [], 10, 10, 1, some true, 20⟩] (by decide)).1,
   (win_rate_zero_guard_and_formula.2.2 ⟨some 100, [⟨"red", 10, []⟩], some 0⟩
      100 0 ⟨⟨100, 0, 0, 0⟩, []⟩
      ⟨0, "green", false, false, 0, 0, [], 10, 0, -10, 90, 0, 0, 1⟩
      ⟨⟨90, -10, 10, 1⟩, [⟨"red", [], 10, 10, 1, some false, 0⟩]⟩
      (by (try simp [spinWheel, spinFinish, spinTotalWagered, spinTotalWon,
        spinClassify, isWinnerFirstPass, isWinnerSecondPass, getPayoutOdds,
        redNumbers, spinInsertedRows, secondPassRows, spinPayouts,
        spinWinningBets, spinWinRate, round2, Except.toOption]) <;>
        (try norm_num))).1⟩

/-- C8 counterexample: validating a street wager whose numbers arrive as
`[2, 1, 3]` through `RouletteEngine._validate_bet` sorts the wager's
selected-numbers list in place (`numbers.sort()` inside
`_are_street_numbers`), so the wager after validation differs from the wager
before it. -/
theorem street_validation_reorders_numbers :
    reValidateBet ⟨.street, [2, 1, 3], 10, 0⟩ =
      (true, ⟨.street, [1, 2, 3], 10, 0⟩) ∧
    (⟨.street, [1, 2, 3], 10, 0⟩ : EngineBet) ≠ ⟨.street, [2, 1, 3], 10, 0⟩ := by
  decide

/-- C8 amended: validation mutates nothing except that
`RouletteEngine._validate_bet` on a street wager (positive stake, exactly 3
numbers) replaces the selected-numbers list by its sorted permutation; the
category, stake and potential payout are always unchanged, the numbers are
always a permutation of the originals, and every non-street wager is
returned fully unchanged. -/
lemma reValidateBet_snd (bet : EngineBet) :
    (reValidateBet bet).2 =
      if bet.bet_type = .street ∧ 0 < bet.amount ∧ bet.numbers.length = 3 then
        { bet with numbers := bet.numbers.insertionSort (· ≤ ·) }
      else bet := by
  by_cases h0 : bet.amount ≤ 0
  · have hnp : ¬ 0 < bet.amount := not_lt.mpr h0
    simp [reValidateBet, h0, hnp]
  · have hpos : 0 < bet.amount := not_le.mp h0
    by_cases h3 : bet.numbers.length = 3
    · cases h : bet.bet_type <;>
        simp [reValidateBet, reAreStreetNumbers, h0, hpos, h3, h]
    · cases h : bet.bet_type <;>
        simp [reValidateBet, reAreStreetNumbers, h0, hpos, h3, h]

theorem validation_mutates_only_street_sort :
    ∀ bet : EngineBet,
      ((reValidateBet bet).2.bet_type = bet.bet_type ∧
       (reValidateBet bet).2.amount = bet.amount ∧
       (reValidateBet bet).2.potential_payout = bet.potential_payout ∧
       (reValidateBet bet).2.numbers.Perm bet.numbers) ∧
      (bet.bet_type ≠ .street → (reValidateBet bet).2 = bet) ∧
      (bet.bet_type = .street → 0 < bet.amount → bet.numbers.length = 3 →
        (reValidateBet bet).2.numbers = bet.numbers.insertionSort (· ≤ ·)) := by
  intro bet
  by_cases hc : bet.bet_type = .street ∧ 0 < bet.amount ∧
      bet.numbers.length = 3
  · rw [reValidateBet_snd, if_pos hc]
    refine ⟨⟨rfl, rfl, rfl, List.perm_insertionSort _ _⟩, ?_, ?_⟩
    · intro hne
      exact absurd hc.1 hne
    · intro _ _ _
      rfl
  · rw [reValidateBet_snd, if_neg hc]
    refine ⟨⟨rfl, rfl, rfl, List.Perm.refl _⟩, fun _ => rfl, ?_⟩
    intro hstreet hpos hlen
    exact absurd ⟨hstreet, hpos, hlen⟩ hc

/-- C8 witness for the amended theorem: a non-street wager is returned
unchanged, and a street wager's numbers come back sorted. -/
theorem validation_mutates_only_street_sort_witness :
    (reValidateBet ⟨.split, [5, 6], 10, 0⟩).2 = ⟨.split, [5, 6], 10, 0⟩ ∧
    (reValidateBet ⟨.street, [2, 1, 3], 10, 0⟩).2.numbers =
      ([2, 1, 3] : List Int).insertionSort (· ≤ ·) :=
  ⟨(validation_mutates_only_street_sort ⟨.split, [5, 6], 10, 0⟩).2.1
      (by decide),
   (validation_mutates_only_street_sort ⟨.street, [2, 1, 3], 10, 0⟩).2.2
      rfl (by decide) (by decide)⟩

/-- C9 counterexample: `save_spin_result` on a round that is already
`completed` (stored outcome 7) overwrites the stored outcome with the new
number 22 and reports no Invalid-Transition error — there is no error channel
at all (`except: pass`) — refuting the claim that the attempt fails and
leaves the round unchanged. -/
theorem completed_round_outcome_overwritten :
    saveSpinResult 1 22 "black" true false 2 2
        [⟨1, "completed", some 7, some "red", some false, some true, some 1,
          some 1⟩] =
      [⟨1, "completed", some 22, some "black", some true, some false, some 2,
        some 2⟩] ∧
    some (22 : Int) ≠ some 7 := by
  decide

/-- C9 amended: attempting to complete an already-completed round does not
fail — `save_spin_result` is an unconditional update: every stored round with
the matching id receives the new outcome fields and phase `completed`
regardless of its current phase or previously recorded outcome, rounds with
other ids are untouched, and no Invalid-Transition error exists. -/
theorem save_spin_result_unconditional_update :
    ∀ (rounds : List RoundRow) (rid : ℕ) (n : Int) (c : String)
      (ie il : Bool) (dz col : Int),
      (saveSpinResult rid n c ie il dz col rounds).length = rounds.length ∧
      ∀ r ∈ rounds,
        (r.id = rid →
          overwrittenRound r n c ie il dz col ∈
            saveSpinResult rid n c ie il dz col rounds) ∧
        (r.id ≠ rid → r ∈ saveSpinResult rid n c ie il dz col rounds) := by
  intro rounds rid n c ie il dz col
  refine ⟨List.length_map _ _, ?_⟩
  intro r hr
  constructor
  · intro hid
    simp only [saveSpinResult, List.mem_map]
    exact ⟨r, hr, by simp [hid, overwrittenRound]⟩
  · intro hid
    simp only [saveSpinResult, List.mem_map]
    exact ⟨r, hr, by simp [hid]⟩

/-- C9 witness for the amended theorem, on a two-round store: the matching
completed round is overwritten, the other round is untouched. -/
theorem save_spin_result_unconditional_update_witness :
    (saveSpinResult 1 5 "red" false true 1 2
        [⟨1, "completed", some 7, some "red", some false, some true, some 1,
          some 1⟩,
         ⟨2, "betting", none, none, none, none, none, none⟩]).length = 2 ∧
    overwrittenRound
        ⟨1, "completed", some 7, some "red", some false, some true, some 1,
          some 1⟩ 5 "red" false true 1 2 ∈
      saveSpinResult 1 5 "red" false true 1 2
        [⟨1, "completed", some 7, some "red", some false, some true, some 1,
          some 1⟩,
         ⟨2, "betting", none, none, none, none, none, none⟩] ∧
    (⟨2, "betting", none, none, none, none, none, none⟩ : RoundRow) ∈
      saveSpinResult 1 5 "red" false true 1 2
        [⟨1, "completed", some 7, some "red", some false, some true, some 1,
          some 1⟩,
         ⟨2, "betting", none, none, none, none, none, none⟩] :=
  ⟨(save_spin_result_unconditional_update
      [⟨1, "completed", some 7, some "red", some false, some true, some 1,
        some 1⟩,
       ⟨2, "betting", none, none, none, none, none, none⟩] 1 5 "red" false
      true 1 2).1,
   ((save_spin_result_unconditional_update
      [⟨1, "completed", some 7, some "red", some false, some true, some 1,
        some 1⟩,
       ⟨2, "betting", none, none, none, none, none, none⟩] 1 5 "red" false
      true 1 2).2
      ⟨1, "completed", some 7, some "red", some false, some true, some 1,
        some 1⟩ (by simp)).1 rfl,
   ((save_spin_result_unconditional_update
      [⟨1, "completed", some 7, some "red", some false, some true, some 1,
        some 1⟩,
       ⟨2, "betting", none, none, none, none, none, none⟩] 1 5 "red" false
      true 1 2).2
      ⟨2, "betting", none, none, none, none, none, none⟩ (by simp)).2
      (by decide)⟩

/-- C10: the settlement endpoint performs no range validation on the
caller-supplied winning number: for every integer, settlement completes
without error, its response carries that number and the attributes derived
from it by the fixed formulas, and every bet is graded and persisted against
it.  Concretely, 40 classifies to dozen 4 (outside {0,1,2,3}) and wins a
black bet, 100 classifies to dozen 9, and −5 wins an odd bet. -/
theorem settlement_accepts_any_winning_number :
    (∀ (n : Int) (rb : Option ℚ) (bets : List FBet) (ub : ℚ) (draw : Int)
      (st : SpinStore), bets ≠ [] →
      (spinWheel ⟨rb, bets, some n⟩ ub draw none st).1.toOption.isSome = true ∧
      ∀ resp ∈ (spinWheel ⟨rb, bets, some n⟩ ub draw none st).1.toOption,
        resp.winning_number = n ∧ resp.color = (spinClassify n).color ∧
        resp.dozen = (spinClassify n).dozen ∧
        resp.column = (spinClassify n).column ∧
        (spinWheel ⟨rb, bets, some n⟩ ub draw none st).2.bets =
          st.bets ++ bets.map (spinRowOf (spinClassify n))) ∧
    (spinClassify 40).dozen = 4 ∧
    (spinClassify 40).dozen ∉ ([0, 1, 2, 3] : List Int) ∧
    (spinClassify 100).dozen = 9 ∧
    isWinnerFirstPass (spinClassify 40) "black" [] = true ∧
    isWinnerFirstPass (spinClassify (-5)) "odd" [] = true := by
  refine ⟨?_, by decide, by decide, by decide, by decide, by decide⟩
  intro n rb bets ub draw st hb
  constructor
  · simp [spinWheel, spinFinish, hb, Except.toOption]
  · intro resp hresp
    simp only [spinWheel, spinFinish, hb, if_false, ite_false,
      Except.toOption, Option.mem_def, Option.some.injEq] at hresp
    subst hresp
    exact ⟨rfl, rfl, rfl, rfl, by
      simp [spinWheel, spinFinish, hb, spinInsertedRows_eq]⟩

/-- C10 witness: settlement of a black bet against the out-of-range number
40 completes without error. -/
theorem settlement_accepts_any_winning_number_witness :
    (spinWheel ⟨none, [⟨"black", 10, []⟩], some 40⟩ 100 0 none
        ⟨⟨100, 0, 0, 0⟩, []⟩).1.toOption.isSome = true :=
  (settlement_accepts_any_winning_number.1 40 none [⟨"black", 10, []⟩] 100 0
      ⟨⟨100, 0, 0, 0⟩, []⟩ (by decide)).1

end AiRoulette
